import Mathlib

/-!
Verification of the UBX protocol codec and MAX-M10S GPS driver
(PicoAPRS-RTOS-Firmware, `src/libs/gps`).

Byte buffers are modelled as `List Nat` whose elements are byte values;
every store truncates with `% 256` (a `uint8_t` store).  A possibly-null
pointer is an `Option`.  Reads performed by the validator are threaded
through `Option`: a read from a null pointer or past the end of the
allocation yields `none`, which propagates to the function result, so
`none` marks an execution that is undefined behaviour in C.
-/

/-! ## Constants (ubx_defs.h, gps_types.h) -/

def MAX_BUFFER_SIZE : Nat := 128
def UBX_SYNC_CHAR_1 : Nat := 0xB5
def UBX_SYNC_CHAR_2 : Nat := 0x62
def UBX_HEADER_LENGTH : Nat := 6
def UBX_CHECKSUM_LENGTH : Nat := 2
def UBX_MAX_PAYLOAD_LENGTH : Nat := MAX_BUFFER_SIZE - UBX_HEADER_LENGTH - UBX_CHECKSUM_LENGTH

def UBX_NAV_PVT_LEN : Nat := 92
def UBX_CLASS_NAV : Nat := 0x01
def UBX_CLASS_ACK : Nat := 0x05
def UBX_CLASS_CFG : Nat := 0x06
def UBX_NAV_PVT : Nat := 0x07
def UBX_CFG_VALSET : Nat := 0x8A
def UBX_ACK_ACK : Nat := 0x01
def UBX_ACK_NACK : Nat := 0x00
def UBX_CFG_LAYER_RAM : Nat := 0x01
def UBX_CFG_LAYER_BBR : Nat := 0x10

/-- Configuration key values of `ubx_cfg_id_e` (ubx_types.h). -/
def UBX_CFG_I2C_UBX_ENABLE : Nat := 0x10720001
def UBX_CFG_I2C_NMEA_DISABLE : Nat := 0x10720002
def UBX_CFG_RATE_MEAS : Nat := 0x30210001

/-- `gps_status_e` (gps_types.h). -/
inductive gps_status_e where
  | UBLOX_OK
  | UBLOX_ERROR
  | UBLOX_INVALID_PARAM
  | UBLOX_TIMEOUT
  | UBLOX_CHECKSUM_ERR
  | UBLOX_I2C_ERROR
deriving DecidableEq, Repr

export gps_status_e (UBLOX_OK UBLOX_ERROR UBLOX_INVALID_PARAM UBLOX_TIMEOUT
  UBLOX_CHECKSUM_ERR UBLOX_I2C_ERROR)

/-! ## Byte-buffer primitives -/

/-- A `uint8_t` store into a byte buffer: the value is truncated mod 256.
Out-of-range stores (`i ≥ l.length`) leave the list unchanged, matching
`List.set`; theorems about the builders assume a 128-byte allocation, under
which every store of the C code is in bounds. -/
def setB (l : List Nat) (i v : Nat) : List Nat := l.set i (v % 256)

/-- `memset(p, 0, n)` on a buffer: the first `n` allocated bytes become 0. -/
def memset0 (l : List Nat) (n : Nat) : List Nat :=
  List.replicate (min n l.length) 0 ++ l.drop n

/-- Total read of `n` bytes starting at `off` (missing bytes default to 0).
Used by the frame builders, whose reads are in bounds for a 128-byte buffer. -/
def readBytesD (l : List Nat) (off n : Nat) : List Nat :=
  match n with
  | 0 => []
  | m + 1 => l.getD off 0 :: readBytesD l (off + 1) m

/-- Checked read of `n` bytes starting at `off`: `none` if any byte is past
the end of the allocation. -/
def readBytesChk (l : List Nat) (off n : Nat) : Option (List Nat) :=
  match n with
  | 0 => some []
  | m + 1 =>
    match l.get? off, readBytesChk l (off + 1) m with
    | some b, some rest => some (b :: rest)
    | _, _ => none

/-- Checked single-byte read through a possibly-null pointer. -/
def readByteChk (buffer : Option (List Nat)) (i : Nat) : Option Nat :=
  buffer.bind fun l => l.get? i

/-- `memcpy(&l[off], src, n)` where `src` is a byte object. -/
def memcpyAt (l : List Nat) (off : Nat) (src : List Nat) (n : Nat) : List Nat :=
  match n with
  | 0 => l
  | m + 1 => memcpyAt (setB l off (src.getD 0 0)) (off + 1) (src.drop 1) m

/-- Overlay freshly received bytes onto the front of a receive buffer. -/
def overlayBytes (buf data : List Nat) : List Nat :=
  (data.take buf.length).map (fun b => b % 256) ++ buf.drop data.length

/-! ## Checksum engine (`calc_checksum`, ubx.c lines 20-28) -/

/-- `calc_checksum`: two 8-bit accumulators; A adds each byte, B adds the
running value of A, both mod 256. -/
def calc_checksum (data : List Nat) : Nat × Nat :=
  data.foldl (fun ck b =>
    let a := (ck.1 + b) % 256
    (a, (ck.2 + a) % 256)) (0, 0)

/-! ## Frame builder (ubx.c) -/

/-- `ubx_prepare_command` (ubx.c lines 31-61): zero-fill the 128-byte frame,
write sync bytes, class, id, a zero 16-bit length, then the checksum over
class/id/length, and return the total size `6 + 0 + 2`. -/
def ubx_prepare_command (buffer : Option (List Nat)) (cls id : Nat) :
    Option (List Nat) × Nat :=
  match buffer with
  | none => (none, 0)
  | some b =>
    let f0 := memset0 b 128
    let f1 := setB (setB f0 0 UBX_SYNC_CHAR_1) 1 UBX_SYNC_CHAR_2
    let f2 := setB (setB f1 2 cls) 3 id
    let len : Nat := 0
    let f3 := setB (setB f2 4 (len % 256)) 5 ((len / 256) % 256)
    let ck := calc_checksum (readBytesD f3 2 (len + 4))
    let f4 := setB (setB f3 (6 + len) ck.1) (6 + len + 1) ck.2
    (some f4, UBX_HEADER_LENGTH + len + UBX_CHECKSUM_LENGTH)

/-- `ubx_prepare_config_cmd_by_size` (ubx.c lines 64-108): zero-fill, write
sync/class(CFG)/id(VALSET), the 8-byte VALSET header (version, layer mask
RAM|BBR, two reserved bytes, little-endian 32-bit key), `value_size` bytes of
the value, the 16-bit length `8 + value_size`, and the checksum; return the
total size.  Returns 0 (buffer untouched) on a null buffer, a null value
pointer, or `value_size > 4`. -/
def ubx_prepare_config_cmd_by_size (buffer : Option (List Nat)) (cfg_id : Nat)
    (value_ptr : Option (List Nat)) (value_size : Nat) :
    Option (List Nat) × Nat :=
  match buffer, value_ptr with
  | some b, some vbytes =>
    if value_size > 4 then (some b, 0) else
    let f0 := memset0 b 128
    let f1 := setB (setB f0 0 UBX_SYNC_CHAR_1) 1 UBX_SYNC_CHAR_2
    let f2 := setB (setB f1 2 UBX_CLASS_CFG) 3 UBX_CFG_VALSET
    let f3 := setB (setB (setB (setB f2 6 0x00) 7
        (UBX_CFG_LAYER_RAM ||| UBX_CFG_LAYER_BBR)) 8 0x00) 9 0x00
    let f4 := setB (setB (setB (setB f3 10 (cfg_id % 256))
        11 ((cfg_id / 2 ^ 8) % 256)) 12 ((cfg_id / 2 ^ 16) % 256))
        13 ((cfg_id / 2 ^ 24) % 256)
    let f5 := memcpyAt f4 14 vbytes value_size
    let len := 8 + value_size
    let f6 := setB (setB f5 4 (len % 256)) 5 ((len / 256) % 256)
    let ck := calc_checksum (readBytesD f6 2 (len + 4))
    let f7 := setB (setB f6 (6 + len) ck.1) (6 + len + 1) ck.2
    (some f7, UBX_HEADER_LENGTH + len + UBX_CHECKSUM_LENGTH)
  | _, _ => (buffer, 0)

/-- `ubx_prepare_config_cmd_u8` (ubx.c lines 111-113): one value byte. -/
def ubx_prepare_config_cmd_u8 (buffer : Option (List Nat)) (cfg_id v : Nat) :
    Option (List Nat) × Nat :=
  ubx_prepare_config_cmd_by_size buffer cfg_id (some [v % 256]) 1

/-- `ubx_prepare_config_cmd_u16` (ubx.c lines 115-117): two little-endian
value bytes. -/
def ubx_prepare_config_cmd_u16 (buffer : Option (List Nat)) (cfg_id v : Nat) :
    Option (List Nat) × Nat :=
  ubx_prepare_config_cmd_by_size buffer cfg_id
    (some [v % 256, (v / 256) % 256]) 2

/-- `ubx_prepare_config_cmd_u32` (ubx.c lines 119-121): four little-endian
value bytes. -/
def ubx_prepare_config_cmd_u32 (buffer : Option (List Nat)) (cfg_id v : Nat) :
    Option (List Nat) × Nat :=
  ubx_prepare_config_cmd_by_size buffer cfg_id
    (some [v % 256, (v / 256) % 256, (v / 2 ^ 16) % 256, (v / 2 ^ 24) % 256]) 4

/-- The deprecated `ubx_prepare_config_cmd` (ubx.c lines 129-174), still the
variant called by `max_m10s_init`: like the u8 builder but with no null
check on the value and a hard-coded length of 9. -/
def ubx_prepare_config_cmd (buffer : Option (List Nat)) (cfg_id v : Nat) :
    Option (List Nat) × Nat :=
  match buffer with
  | none => (none, 0)
  | some b =>
    let f0 := memset0 b 128
    let f1 := setB (setB f0 0 UBX_SYNC_CHAR_1) 1 UBX_SYNC_CHAR_2
    let f2 := setB (setB f1 2 UBX_CLASS_CFG) 3 UBX_CFG_VALSET
    let f3 := setB (setB (setB (setB f2 6 0x00) 7
        (UBX_CFG_LAYER_RAM ||| UBX_CFG_LAYER_BBR)) 8 0x00) 9 0x00
    let f4 := setB (setB (setB (setB f3 10 (cfg_id % 256))
        11 ((cfg_id / 2 ^ 8) % 256)) 12 ((cfg_id / 2 ^ 16) % 256))
        13 ((cfg_id / 2 ^ 24) % 256)
    let f5 := setB f4 14 v
    let len : Nat := 9
    let f6 := setB (setB f5 4 (len % 256)) 5 ((len / 256) % 256)
    let ck := calc_checksum (readBytesD f6 2 (len + 4))
    let f7 := setB (setB f6 (6 + len) ck.1) (6 + len + 1) ck.2
    (some f7, UBX_HEADER_LENGTH + len + UBX_CHECKSUM_LENGTH)

/-! ## Frame validator (ubx.c) -/

/-- `ubx_validate_packet` (ubx.c lines 177-214).  Reads are checked: a result
of `none` marks undefined behaviour (a read past the allocation). -/
def ubx_validate_packet (buffer : Option (List Nat)) (size : Nat)
    (expected_cls expected_id : Nat) : Option gps_status_e :=
  match buffer with
  | none => some UBLOX_INVALID_PARAM
  | some l =>
    if size < UBX_HEADER_LENGTH + UBX_CHECKSUM_LENGTH then
      some UBLOX_INVALID_PARAM
    else
      match l.get? 0, l.get? 1 with
      | some sync1, some sync2 =>
        if sync1 ≠ UBX_SYNC_CHAR_1 ∨ sync2 ≠ UBX_SYNC_CHAR_2 then
          some UBLOX_ERROR
        else
          match l.get? 2, l.get? 3 with
          | some cls, some id =>
            if cls ≠ expected_cls ∨ id ≠ expected_id then some UBLOX_ERROR
            else
              match l.get? 4, l.get? 5 with
              | some lenLo, some lenHi =>
                let len := lenLo + 256 * lenHi
                if len > UBX_MAX_PAYLOAD_LENGTH then some UBLOX_ERROR
                else if size ≠ UBX_HEADER_LENGTH + len + UBX_CHECKSUM_LENGTH then
                  some UBLOX_ERROR
                else
                  match readBytesChk l 2 (len + 4),
                      l.get? (size - 2), l.get? (size - 1) with
                  | some span, some ckLo, some ckHi =>
                    let ck := calc_checksum span
                    if ck.1 ≠ ckLo ∨ ck.2 ≠ ckHi then some UBLOX_ERROR
                    else some UBLOX_OK
                  | _, _, _ => none
              | _, _ => none
          | _, _ => none
      | _, _ => none

/-- `ubx_validate_ack` (ubx.c lines 216-244): validate against the ACK
class/id; on failure inspect `buffer[3]` to distinguish a NACK, on success
check that the 2-byte payload echoes the expected class/id. -/
def ubx_validate_ack (buffer : Option (List Nat)) (size : Nat)
    (expected_cls expected_id : Nat) : Option gps_status_e :=
  match ubx_validate_packet buffer size UBX_CLASS_ACK UBX_ACK_ACK with
  | none => none
  | some status =>
    if status ≠ UBLOX_OK then
      match readByteChk buffer 3 with
      | none => none
      | some b3 =>
        if b3 = UBX_ACK_NACK then some UBLOX_ERROR else some status
    else
      match readByteChk buffer 6, readByteChk buffer 7 with
      | some b6, some b7 =>
        if b6 ≠ expected_cls ∨ b7 ≠ expected_id then some UBLOX_ERROR
        else some UBLOX_OK
      | _, _ => none

/-- Spec-side restatement of `validate_packet`, following spec.md §4.3: the
declared length is read little-endian from bytes 4-5; the packet is rejected
on sync mismatch, class/id mismatch, a length above the payload bound, a
total-size mismatch, or a checksum mismatch, and accepted otherwise.  Total
reads; used to state the refinement theorem for the validator. -/
def validate_packet_spec (l : List Nat) (size : Nat)
    (expected_cls expected_id : Nat) : gps_status_e :=
  let len := l.getD 4 0 + 256 * l.getD 5 0
  let ck := calc_checksum (readBytesD l 2 (len + 4))
  if l.getD 0 0 ≠ UBX_SYNC_CHAR_1 ∨ l.getD 1 0 ≠ UBX_SYNC_CHAR_2 then
    UBLOX_ERROR
  else if l.getD 2 0 ≠ expected_cls ∨ l.getD 3 0 ≠ expected_id then
    UBLOX_ERROR
  else if len > UBX_MAX_PAYLOAD_LENGTH then UBLOX_ERROR
  else if size ≠ UBX_HEADER_LENGTH + len + UBX_CHECKSUM_LENGTH then UBLOX_ERROR
  else if ck.1 ≠ l.getD (size - 2) 0 ∨ ck.2 ≠ l.getD (size - 1) 0 then
    UBLOX_ERROR
  else UBLOX_OK

/-! ## Device driver (max_m10s.c), blocking transport mode -/

/-- `HAL_StatusTypeDef` of the STM32 HAL consumed by the driver. -/
inductive HAL_StatusTypeDef where
  | HAL_OK
  | HAL_ERROR
  | HAL_BUSY
  | HAL_TIMEOUT
deriving DecidableEq, Repr

export HAL_StatusTypeDef (HAL_OK HAL_ERROR HAL_BUSY HAL_TIMEOUT)

/-- `gps_cmd_type_e` (gps_types.h). -/
inductive gps_cmd_type_e where
  | GPS_CMD_PVT
deriving DecidableEq, Repr

export gps_cmd_type_e (GPS_CMD_PVT)

/-- A blocking `i2c_transmit` function pointer: (hi2c, address, the bytes
pointed to, size, timeout) to a HAL status.  The environment's behaviour is
an arbitrary function. -/
def i2c_transmit_fn : Type :=
  Option Nat → Nat → List Nat → Nat → Nat → HAL_StatusTypeDef

/-- A blocking `i2c_receive` function pointer: (hi2c, address, size, timeout)
to a HAL status plus the bytes it wrote into the caller's buffer. -/
def i2c_receive_fn : Type :=
  Option Nat → Nat → Nat → Nat → HAL_StatusTypeDef × List Nat

/-- `max_m10s_init_s` (max_m10s.h): configuration record; each pointer-typed
field is an `Option` so the driver's null checks are expressible. -/
structure max_m10s_init_s where
  hi2c : Option Nat
  transmit : Option i2c_transmit_fn
  receive : Option i2c_receive_fn
  delay_blocking : Option (Nat → Unit)
  device_address : Nat
  timeout_ms : Nat

/-- `max_m10s_dev_s` (max_m10s.h): the device instance. -/
structure max_m10s_dev_s where
  initialized : Nat
  current_cmd : gps_cmd_type_e
  configs : max_m10s_init_s
  tx_buffer : List Nat
  rx_buffer : List Nat
  tx_size : Nat
  rx_size : Nat

/-- One bus transaction initiated through the transport function pointers;
driver operations also return the list of transactions they initiated. -/
inductive bus_op where
  | tx (addr : Nat) (data : List Nat) (size : Nat)
  | rx (addr : Nat) (size : Nat)
deriving DecidableEq, Repr

/-- `max_m10s_init` (max_m10s.c lines 13-100), blocking mode: validate the
configuration, store it (shifting the device address left by one), clear the
command state, then twice (UBX-enable, NMEA-disable): build a config command
with the deprecated builder, transmit it, delay, receive a 10-byte response
and validate it as an ACK.  Only after both ACKs is `initialized` set.
`none` marks undefined behaviour reached inside `ubx_validate_ack`. -/
def max_m10s_init (dev : max_m10s_dev_s) (init : max_m10s_init_s) :
    Option (gps_status_e × max_m10s_dev_s × List bus_op) :=
  match init.hi2c, init.transmit, init.receive, init.delay_blocking with
  | some _, some tfn, some rfn, some _ =>
    let cfgs : max_m10s_init_s :=
      { init with device_address := (init.device_address * 2) % 256 }
    let dev1 : max_m10s_dev_s :=
      { dev with configs := cfgs, initialized := 0, tx_size := 0, rx_size := 0 }
    let p1 := ubx_prepare_config_cmd (some dev1.tx_buffer) UBX_CFG_I2C_UBX_ENABLE 1
    let dev2 : max_m10s_dev_s :=
      { dev1 with tx_buffer := p1.1.getD dev1.tx_buffer, tx_size := p1.2 }
    let sent1 := dev2.tx_buffer.take dev2.tx_size
    let st1 := tfn dev2.configs.hi2c dev2.configs.device_address sent1
      dev2.tx_size dev2.configs.timeout_ms
    let tr1 := [bus_op.tx dev2.configs.device_address sent1 dev2.tx_size]
    if st1 ≠ HAL_OK then some (UBLOX_ERROR, dev2, tr1)
    else
      let r1 := rfn dev2.configs.hi2c dev2.configs.device_address 10
        dev2.configs.timeout_ms
      let dev3 : max_m10s_dev_s :=
        { dev2 with rx_buffer := overlayBytes dev2.rx_buffer r1.2 }
      let tr2 := tr1 ++ [bus_op.rx dev2.configs.device_address 10]
      if r1.1 ≠ HAL_OK then some (UBLOX_I2C_ERROR, dev3, tr2)
      else
        match ubx_validate_ack (some dev3.rx_buffer) 10 UBX_CLASS_CFG UBX_CFG_VALSET with
        | none => none
        | some result1 =>
          if result1 ≠ UBLOX_OK then some (result1, dev3, tr2)
          else
            let p2 := ubx_prepare_config_cmd (some dev3.tx_buffer)
              UBX_CFG_I2C_NMEA_DISABLE 0
            let dev4 : max_m10s_dev_s :=
              { dev3 with tx_buffer := p2.1.getD dev3.tx_buffer, tx_size := p2.2 }
            let sent2 := dev4.tx_buffer.take dev4.tx_size
            let st2 := tfn dev4.configs.hi2c dev4.configs.device_address sent2
              dev4.tx_size dev4.configs.timeout_ms
            let tr3 := tr2 ++ [bus_op.tx dev4.configs.device_address sent2 dev4.tx_size]
            if st2 ≠ HAL_OK then some (UBLOX_ERROR, dev4, tr3)
            else
              let r2 := rfn dev4.configs.hi2c dev4.configs.device_address 10
                dev4.configs.timeout_ms
              let dev5 : max_m10s_dev_s :=
                { dev4 with rx_buffer := overlayBytes dev4.rx_buffer r2.2 }
              let tr4 := tr3 ++ [bus_op.rx dev4.configs.device_address 10]
              if r2.1 ≠ HAL_OK then some (UBLOX_I2C_ERROR, dev5, tr4)
              else
                match ubx_validate_ack (some dev5.rx_buffer) 10 UBX_CLASS_CFG
                    UBX_CFG_VALSET with
                | none => none
                | some result2 =>
                  if result2 ≠ UBLOX_OK then some (result2, dev5, tr4)
                  else some (UBLOX_OK, { dev5 with initialized := 1 }, tr4)
  | _, _, _, _ => some (UBLOX_INVALID_PARAM, dev, [])

/-- `max_m10s_command` (max_m10s.c lines 108-140): reject uninitialized
instances, build the PVT poll into the transmit buffer, record it as the
current command, then transmit.  `none` marks a call through a null transmit
pointer (the function performs no null check of its own). -/
def max_m10s_command (dev : max_m10s_dev_s) (cmd_type : gps_cmd_type_e) :
    Option (gps_status_e × max_m10s_dev_s × List bus_op) :=
  if dev.initialized = 0 then some (UBLOX_INVALID_PARAM, dev, [])
  else
    match cmd_type with
    | GPS_CMD_PVT =>
      let p := ubx_prepare_command (some dev.tx_buffer) UBX_CLASS_NAV UBX_NAV_PVT
      let dev1 : max_m10s_dev_s := { dev with tx_buffer := p.1.getD dev.tx_buffer }
      if p.2 = 0 then some (UBLOX_ERROR, dev1, [])
      else
        let dev2 : max_m10s_dev_s :=
          { dev1 with tx_size := p.2, current_cmd := cmd_type }
        match dev2.configs.transmit with
        | none => none
        | some tfn =>
          let sent := dev2.tx_buffer.take dev2.tx_size
          let st := tfn dev2.configs.hi2c dev2.configs.device_address sent
            dev2.tx_size dev2.configs.timeout_ms
          let tr := [bus_op.tx dev2.configs.device_address sent dev2.tx_size]
          if st ≠ HAL_OK then some (UBLOX_I2C_ERROR, dev2, tr)
          else some (UBLOX_OK, dev2, tr)

/-- `max_m10s_read` (max_m10s.c lines 148-168): reject uninitialized
instances, set the expected response size for the current command, then
receive that many bytes into the receive buffer. -/
def max_m10s_read (dev : max_m10s_dev_s) :
    Option (gps_status_e × max_m10s_dev_s × List bus_op) :=
  if dev.initialized = 0 then some (UBLOX_INVALID_PARAM, dev, [])
  else
    match dev.current_cmd with
    | GPS_CMD_PVT =>
      let dev1 : max_m10s_dev_s :=
        { dev with rx_size := UBX_HEADER_LENGTH + UBX_NAV_PVT_LEN + UBX_CHECKSUM_LENGTH }
      match dev1.configs.receive with
      | none => none
      | some rfn =>
        let r := rfn dev1.configs.hi2c dev1.configs.device_address dev1.rx_size
          dev1.configs.timeout_ms
        let dev2 : max_m10s_dev_s :=
          { dev1 with rx_buffer := overlayBytes dev1.rx_buffer r.2 }
        let tr := [bus_op.rx dev1.configs.device_address dev1.rx_size]
        if r.1 ≠ HAL_OK then some (UBLOX_I2C_ERROR, dev2, tr)
        else some (UBLOX_OK, dev2, tr)

/-! ## Concrete fixtures used as witness inputs for the driver theorems -/

/-- A transmit function whose transport always fails. -/
def tx_always_fail : i2c_transmit_fn := fun _ _ _ _ _ => HAL_ERROR

/-- A receive function that reports success and writes nothing. -/
def rx_ok_empty : i2c_receive_fn := fun _ _ _ _ => (HAL_OK, [])

/-- A fully-populated driver configuration whose transmit always fails. -/
def cfg_tx_fail : max_m10s_init_s :=
  { hi2c := some 0, transmit := some tx_always_fail, receive := some rx_ok_empty,
    delay_blocking := some (fun _ => ()), device_address := 0x42, timeout_ms := 100 }

/-- An uninitialized device instance. -/
def dev_uninit : max_m10s_dev_s :=
  { initialized := 0, current_cmd := GPS_CMD_PVT, configs := cfg_tx_fail,
    tx_buffer := List.replicate 128 0, rx_buffer := List.replicate 128 0,
    tx_size := 0, rx_size := 0 }

/-- An initialized device instance with `tx_size = 17` (the transmit size a
successful `max_m10s_init` leaves behind) whose transmit always fails. -/
def dev_ready17 : max_m10s_dev_s :=
  { dev_uninit with initialized := 1, tx_size := 17 }

/-! ## Basic lemmas about the buffer primitives -/

theorem length_setB (l : List Nat) (i v : Nat) : (setB l i v).length = l.length :=
  List.length_set l i (v % 256)

theorem getD_setB_eq (l : List Nat) (i v : Nat) (h : i < l.length) :
    (setB l i v).getD i 0 = v % 256 := by
  rw [setB, List.getD_eq_getElem?_getD, List.getElem?_set_self h]
  rfl

theorem getD_setB_ne (l : List Nat) {i j : Nat} (v : Nat) (h : i ≠ j) :
    (setB l i v).getD j 0 = l.getD j 0 := by
  rw [setB, List.getD_eq_getElem?_getD, List.getElem?_set_ne h,
    List.getD_eq_getElem?_getD]

theorem getD_replicate_zero (n i : Nat) : (List.replicate n (0 : Nat)).getD i 0 = 0 := by
  rw [List.getD_eq_getElem?_getD, List.getElem?_replicate]
  by_cases h : i < n <;> simp [h]

theorem get?_eq_some_getD (l : List Nat) {i : Nat} (h : i < l.length) :
    l.get? i = some (l.getD i 0) := by
  rw [List.getD_eq_getElem?_getD, List.get?_eq_getElem?, List.getElem?_eq_getElem h]
  rfl

theorem get?_eq_none_of_short (l : List Nat) {i : Nat} (h : l.length ≤ i) :
    l.get? i = none := by
  rw [List.get?_eq_getElem?]
  exact List.getElem?_eq_none h

theorem length_memset0 (l : List Nat) (n : Nat) : (memset0 l n).length = l.length := by
  simp [memset0]
  omega

theorem memset0_eq_replicate (l : List Nat) (h : l.length = 128) :
    memset0 l 128 = List.replicate 128 0 := by
  unfold memset0
  rw [h, List.drop_eq_nil_of_le (by omega), min_self, List.append_nil]

theorem readBytesD_succ (l : List Nat) (off m : Nat) :
    readBytesD l off (m + 1) = l.getD off 0 :: readBytesD l (off + 1) m := rfl

theorem readBytesD_four (l : List Nat) (off : Nat) :
    readBytesD l off 4 =
      [l.getD off 0, l.getD (off + 1) 0, l.getD (off + 2) 0, l.getD (off + 3) 0] := rfl

/-- Writing outside the window `[off, off + n)` does not change the bytes
read from that window. -/
theorem readBytesD_setB_outside (v : Nat) :
    ∀ (n off : Nat) (l : List Nat) (i : Nat), (i < off ∨ off + n ≤ i) →
      readBytesD (setB l i v) off n = readBytesD l off n := by
  intro n
  induction n with
  | zero => intro off l i _; rfl
  | succ m ih =>
    intro off l i h
    rw [readBytesD_succ, readBytesD_succ, getD_setB_ne l v (by omega),
      ih (off + 1) l i (by omega)]

theorem readBytesChk_eq_some :
    ∀ (n off : Nat) (l : List Nat), off + n ≤ l.length →
      readBytesChk l off n = some (readBytesD l off n) := by
  intro n
  induction n with
  | zero => intro off l _; rfl
  | succ m ih =>
    intro off l h
    rw [readBytesChk, readBytesD_succ, get?_eq_some_getD l (by omega),
      ih (off + 1) l (by omega)]

/-! ## Checksum lemmas -/

theorem calc_checksum_lt (l : List Nat) :
    (calc_checksum l).1 < 256 ∧ (calc_checksum l).2 < 256 := by
  suffices h : ∀ (l : List Nat) (a b : Nat), a < 256 → b < 256 →
      (l.foldl (fun ck b =>
        let a := (ck.1 + b) % 256
        (a, (ck.2 + a) % 256)) (a, b)).1 < 256 ∧
      (l.foldl (fun ck b =>
        let a := (ck.1 + b) % 256
        (a, (ck.2 + a) % 256)) (a, b)).2 < 256 by
    exact h l 0 0 (by omega) (by omega)
  intro l
  induction l with
  | nil => intro a b ha hb; exact ⟨ha, hb⟩
  | cons x xs ih =>
    intro a b _ _
    exact ih ((a + x) % 256) ((b + (a + x) % 256) % 256)
      (Nat.mod_lt _ (by omega)) (Nat.mod_lt _ (by omega))

theorem calc_checksum_fst_aux :
    ∀ (l : List Nat) (a b : Nat),
      (l.foldl (fun ck b =>
        let a := (ck.1 + b) % 256
        (a, (ck.2 + a) % 256)) (a % 256, b)).1 = (a + l.sum) % 256 := by
  intro l
  induction l with
  | nil => intro a b; simp
  | cons x xs ih =>
    intro a b
    rw [List.foldl_cons]
    simp only [Nat.mod_add_mod]
    rw [List.sum_cons, ← Nat.add_assoc]
    exact ih (a + x) ((b + (a + x) % 256) % 256)

/-- The first checksum byte is the byte sum of the span, mod 256. -/
theorem calc_checksum_fst (l : List Nat) : (calc_checksum l).1 = l.sum % 256 := by
  have h := calc_checksum_fst_aux l 0 0
  rw [Nat.zero_add] at h
  exact h

/-! ## Validator characterization -/

theorem validate_packet_null_or_short (buffer : Option (List Nat))
    (size ecls eid : Nat) (h : buffer = none ∨ size < 8) :
    ubx_validate_packet buffer size ecls eid = some UBLOX_INVALID_PARAM := by
  rcases h with h | h
  · subst h; rfl
  · cases buffer with
    | none => rfl
    | some l =>
      simp only [ubx_validate_packet]
      rw [if_pos (show size < UBX_HEADER_LENGTH + UBX_CHECKSUM_LENGTH by
        simp only [UBX_HEADER_LENGTH, UBX_CHECKSUM_LENGTH]; omega)]

/-- A packet can only validate as OK when the declared size is at least 8 and
bytes 0-3 of the allocation were actually readable. -/
theorem validate_packet_some_ok_bound (l : List Nat) (size ecls eid : Nat)
    (h : ubx_validate_packet (some l) size ecls eid = some UBLOX_OK) :
    8 ≤ size ∧ 3 < l.length := by
  constructor
  · by_contra h8
    push_neg at h8
    rw [validate_packet_null_or_short (some l) size ecls eid (Or.inr h8)] at h
    exact absurd h (by decide)
  · by_contra hlen
    push_neg at hlen
    have hg3 : l.get? 3 = none := get?_eq_none_of_short l (by omega)
    simp only [ubx_validate_packet] at h
    rw [hg3] at h
    split at h
    · exact absurd h (by decide)
    · split at h <;> simp_all

/-- Refinement: on a buffer whose allocation covers the declared size, the
validator computes exactly the spec-side decision. -/
theorem validate_packet_char (l : List Nat) (size ecls eid : Nat)
    (h8 : 8 ≤ size) (hl : size ≤ l.length) :
    ubx_validate_packet (some l) size ecls eid =
      some (validate_packet_spec l size ecls eid) := by
  have hlen : 8 ≤ l.length := le_trans h8 hl
  have e0 := get?_eq_some_getD l (show 0 < l.length by omega)
  have e1 := get?_eq_some_getD l (show 1 < l.length by omega)
  have e2 := get?_eq_some_getD l (show 2 < l.length by omega)
  have e3 := get?_eq_some_getD l (show 3 < l.length by omega)
  have e4 := get?_eq_some_getD l (show 4 < l.length by omega)
  have e5 := get?_eq_some_getD l (show 5 < l.length by omega)
  have hns : ¬ size < UBX_HEADER_LENGTH + UBX_CHECKSUM_LENGTH := by
    simp only [UBX_HEADER_LENGTH, UBX_CHECKSUM_LENGTH]; omega
  simp only [ubx_validate_packet, validate_packet_spec, e0, e1, e2, e3, e4, e5,
    if_neg hns]
  by_cases hsync : l.getD 0 0 ≠ UBX_SYNC_CHAR_1 ∨ l.getD 1 0 ≠ UBX_SYNC_CHAR_2
  · simp only [if_pos hsync]
  · simp only [if_neg hsync]
    by_cases hci : l.getD 2 0 ≠ ecls ∨ l.getD 3 0 ≠ eid
    · simp only [if_pos hci]
    · simp only [if_neg hci]
      by_cases hmax : l.getD 4 0 + 256 * l.getD 5 0 > UBX_MAX_PAYLOAD_LENGTH
      · simp only [if_pos hmax]
      · simp only [if_neg hmax]
        by_cases hsz : size ≠
            UBX_HEADER_LENGTH + (l.getD 4 0 + 256 * l.getD 5 0) + UBX_CHECKSUM_LENGTH
        · simp only [if_pos hsz]
        · simp only [if_neg hsz]
          have hsize : size = 6 + (l.getD 4 0 + 256 * l.getD 5 0) + 2 := by
            have := not_ne_iff.mp hsz
            simpa only [UBX_HEADER_LENGTH, UBX_CHECKSUM_LENGTH] using this
          have hrb : readBytesChk l 2 (l.getD 4 0 + 256 * l.getD 5 0 + 4) =
              some (readBytesD l 2 (l.getD 4 0 + 256 * l.getD 5 0 + 4)) :=
            readBytesChk_eq_some _ 2 l (by omega)
          have em2 := get?_eq_some_getD l (show size - 2 < l.length by omega)
          have em1 := get?_eq_some_getD l (show size - 1 < l.length by omega)
          simp only [hrb, em2, em1]
          by_cases hck : (calc_checksum (readBytesD l 2
                (l.getD 4 0 + 256 * l.getD 5 0 + 4))).1 ≠ l.getD (size - 2) 0 ∨
              (calc_checksum (readBytesD l 2
                (l.getD 4 0 + 256 * l.getD 5 0 + 4))).2 ≠ l.getD (size - 1) 0
          · simp only [if_pos hck]
          · simp only [if_neg hck]

/-- Replacing the byte at `i` by `v` changes the byte sum by exactly the
difference, stated without subtraction. -/
theorem sum_set_add :
    ∀ (l : List Nat) (i v : Nat), i < l.length →
      (l.set i v).sum + l.getD i 0 = l.sum + v := by
  intro l
  induction l with
  | nil => intro i v h; simp at h
  | cons x xs ih =>
    intro i v h
    cases i with
    | zero => simp [List.set]; omega
    | succ j =>
      have hj : j < xs.length := by simpa using h
      have := ih j v hj
      simp only [List.set, List.sum_cons, List.getD_cons_succ]
      omega

theorem getD_mem (l : List Nat) {i : Nat} (h : i < l.length) : l.getD i 0 ∈ l := by
  rw [List.getD_eq_getElem?_getD, List.getElem?_eq_getElem h]
  exact List.getElem_mem h

theorem xor_eq_self_iff_zero (a b : Nat) (h : a ^^^ b = a) : b = 0 := by
  have h2 := congrArg (fun x => a ^^^ x) h
  simpa [← Nat.xor_assoc, Nat.xor_self, Nat.zero_xor] using h2

theorem calc_checksum_fst_mod (l : List Nat) :
    (calc_checksum l).1 % 256 = (calc_checksum l).1 :=
  Nat.mod_eq_of_lt (calc_checksum_lt l).1

theorem calc_checksum_snd_mod (l : List Nat) :
    (calc_checksum l).2 % 256 = (calc_checksum l).2 :=
  Nat.mod_eq_of_lt (calc_checksum_lt l).2

/-! ## Frame-builder characterization -/

/-- On a 128-byte buffer, `ubx_prepare_command` returns size 8 and a frame
whose header bytes, length bytes and stored checksum are as the C code
writes them. -/
theorem prepare_command_some (b : List Nat) (cls id : Nat) (hb : b.length = 128) :
    ∃ out : List Nat,
      ubx_prepare_command (some b) cls id = (some out, 8) ∧
      out.length = 128 ∧
      out.getD 0 0 = 0xB5 ∧ out.getD 1 0 = 0x62 ∧
      out.getD 2 0 = cls % 256 ∧ out.getD 3 0 = id % 256 ∧
      out.getD 4 0 = 0 ∧ out.getD 5 0 = 0 ∧
      out.getD 6 0 = (calc_checksum (readBytesD out 2 4)).1 ∧
      out.getD 7 0 = (calc_checksum (readBytesD out 2 4)).2 := by
  simp only [ubx_prepare_command, memset0_eq_replicate b hb, Nat.zero_add,
    Nat.add_zero, Nat.zero_mod, Nat.zero_div]
  generalize hz : List.replicate 128 (0 : Nat) = z
  have hzlen : z.length = 128 := by rw [← hz]; simp
  have hspan : ∀ (f : List Nat) (c1 c2 : Nat),
      readBytesD (setB (setB f 6 c1) (6 + 1) c2) 2 4 = readBytesD f 2 4 :=
    fun f c1 c2 => by
      rw [readBytesD_setB_outside _ _ _ _ _ (by decide),
        readBytesD_setB_outside _ _ _ _ _ (by decide)]
  refine ⟨_, rfl, ?_, ?_, ?_, ?_, ?_, ?_, ?_, ?_, ?_⟩
  · simp only [length_setB, hzlen]
  · repeat rw [getD_setB_ne _ _ (by decide)]
    rw [getD_setB_eq _ _ _ (by simp only [length_setB, hzlen]; decide)]
    decide
  · repeat rw [getD_setB_ne _ _ (by decide)]
    rw [getD_setB_eq _ _ _ (by simp only [length_setB, hzlen]; decide)]
    decide
  · repeat rw [getD_setB_ne _ _ (by decide)]
    rw [getD_setB_eq _ _ _ (by simp only [length_setB, hzlen]; decide)]
  · repeat rw [getD_setB_ne _ _ (by decide)]
    rw [getD_setB_eq _ _ _ (by simp only [length_setB, hzlen]; decide)]
  · repeat rw [getD_setB_ne _ _ (by decide)]
    rw [getD_setB_eq _ _ _ (by simp only [length_setB, hzlen]; decide)]
  · repeat rw [getD_setB_ne _ _ (by decide)]
    rw [getD_setB_eq _ _ _ (by simp only [length_setB, hzlen]; decide)]
  · repeat rw [getD_setB_ne _ _ (by decide)]
    rw [getD_setB_eq _ _ _ (by simp only [length_setB, hzlen]; decide)]
    rw [hspan]
    exact calc_checksum_fst_mod _
  · rw [getD_setB_eq _ _ _ (by simp only [length_setB, hzlen]; decide)]
    rw [hspan]
    exact calc_checksum_snd_mod _

/-- The output of `ubx_prepare_command` does not depend on the previous
contents of the (non-null, 128-byte) buffer. -/
theorem prepare_command_indep_buf (b : List Nat) (hb : b.length = 128)
    (cls id : Nat) :
    ubx_prepare_command (some b) cls id =
      ubx_prepare_command (some (List.replicate 128 0)) cls id := by
  simp only [ubx_prepare_command, memset0_eq_replicate b hb,
    memset0_eq_replicate (List.replicate 128 0) (by simp)]

/-- The output of `ubx_prepare_config_cmd_by_size` does not depend on the
previous contents of the (non-null, 128-byte) buffer when the arguments pass
its parameter check. -/
theorem prepare_config_indep_buf (b : List Nat) (hb : b.length = 128)
    (cfg : Nat) (vb : List Nat) (n : Nat) (hn : n ≤ 4) :
    ubx_prepare_config_cmd_by_size (some b) cfg (some vb) n =
      ubx_prepare_config_cmd_by_size (some (List.replicate 128 0)) cfg (some vb) n := by
  simp only [ubx_prepare_config_cmd_by_size, if_neg (show ¬ n > 4 by omega),
    memset0_eq_replicate b hb,
    memset0_eq_replicate (List.replicate 128 0) (by simp)]

/-- On a buffer covering the declared size, the validator always returns a
status (it reaches no out-of-bounds read). -/
theorem validate_packet_some_of_le (l : List Nat) (size ecls eid : Nat)
    (hl : size ≤ l.length) :
    ∃ s, ubx_validate_packet (some l) size ecls eid = some s := by
  by_cases h8 : size < 8
  · exact ⟨_, validate_packet_null_or_short (some l) size ecls eid (Or.inr h8)⟩
  · exact ⟨_, validate_packet_char l size ecls eid (by omega) hl⟩

/-- When the inner ACK-shaped validation fails with status `s`, the ACK
validator reads byte 3 and maps a NACK id to `UBLOX_ERROR`, otherwise
propagates `s` (requires byte 3 to be readable). -/
theorem ack_fail_char (l : List Nat) (size ecls eid : Nat) (s : gps_status_e)
    (h3 : 3 < l.length)
    (hinner : ubx_validate_packet (some l) size UBX_CLASS_ACK UBX_ACK_ACK = some s)
    (hne : s ≠ UBLOX_OK) :
    ubx_validate_ack (some l) size ecls eid =
      some (if l.getD 3 0 = UBX_ACK_NACK then UBLOX_ERROR else s) := by
  have e3 := get?_eq_some_getD l h3
  simp only [ubx_validate_ack, hinner, if_pos hne, readByteChk, Option.some_bind, e3]
  by_cases hn : l.getD 3 0 = UBX_ACK_NACK
  · rw [if_pos hn, if_pos hn]
  · rw [if_neg hn, if_neg hn]

/-! ## Claims -/

/-- C1: for every class byte and id byte, and any 128-byte buffer,
`ubx_prepare_command` returns a size `s` (= 8) such that
`ubx_validate_packet` on the resulting buffer contents with that size and
the same class and id returns success. -/
theorem C1_prepare_command_validates (b : List Nat) (cls id : Nat)
    (hb : b.length = 128) (hcls : cls < 256) (hid : id < 256) :
    ubx_validate_packet (ubx_prepare_command (some b) cls id).1
      (ubx_prepare_command (some b) cls id).2 cls id = some UBLOX_OK := by
  obtain ⟨out, heq, hlen, h0, h1, h2, h3, h4, h5, h6, h7⟩ :=
    prepare_command_some b cls id hb
  rw [heq]
  show ubx_validate_packet (some out) 8 cls id = some UBLOX_OK
  rw [validate_packet_char out 8 cls id (by omega) (by omega)]
  rw [Nat.mod_eq_of_lt hcls] at h2
  rw [Nat.mod_eq_of_lt hid] at h3
  simp only [validate_packet_spec, h0, h1, h2, h3, h4, h5]
  rw [if_neg (by decide)]
  rw [if_neg (show ¬ (cls ≠ cls ∨ id ≠ id) by simp)]
  rw [if_neg (by decide)]
  rw [if_neg (by decide)]
  rw [show (0 + 256 * 0 + 4 : Nat) = 4 from rfl]
  rw [show (8 - 2 : Nat) = 6 from rfl, show (8 - 1 : Nat) = 7 from rfl]
  rw [h6, h7]
  rw [if_neg (show ¬ ((calc_checksum (readBytesD out 2 4)).1 ≠
      (calc_checksum (readBytesD out 2 4)).1 ∨
      (calc_checksum (readBytesD out 2 4)).2 ≠
      (calc_checksum (readBytesD out 2 4)).2) by simp)]

theorem C1_witness :
    ubx_validate_packet
      (ubx_prepare_command (some (List.replicate 128 0)) UBX_CLASS_NAV UBX_NAV_PVT).1
      (ubx_prepare_command (some (List.replicate 128 0)) UBX_CLASS_NAV UBX_NAV_PVT).2
      UBX_CLASS_NAV UBX_NAV_PVT = some UBLOX_OK :=
  C1_prepare_command_validates (List.replicate 128 0) UBX_CLASS_NAV UBX_NAV_PVT
    (by simp) (by decide) (by decide)

/-- C3: `ubx_validate_packet` returns `UBLOX_INVALID_PARAM` whenever the
buffer is null or the size is below 8, regardless of contents; on a
buffer covering the declared size it returns `UBLOX_ERROR` exactly on a
sync / class-id / length-bound / total-size / checksum mismatch (in the
spec-side decision `validate_packet_spec`) and `UBLOX_OK` otherwise. -/
theorem C3_validate_packet_cases (buffer : Option (List Nat))
    (size ecls eid : Nat) :
    ((buffer = none ∨ size < 8) →
      ubx_validate_packet buffer size ecls eid = some UBLOX_INVALID_PARAM) ∧
    (∀ l, buffer = some l → 8 ≤ size → size ≤ l.length →
      ubx_validate_packet buffer size ecls eid =
        some (validate_packet_spec l size ecls eid)) :=
  ⟨validate_packet_null_or_short buffer size ecls eid,
   fun l hbl h8 hl => by
     rw [hbl]; exact validate_packet_char l size ecls eid h8 hl⟩

theorem C3_witness :
    ubx_validate_packet none 0 0 0 = some UBLOX_INVALID_PARAM ∧
    ubx_validate_packet (some (List.replicate 8 0)) 8 0 0 =
      some (validate_packet_spec (List.replicate 8 0) 8 0 0) :=
  ⟨(C3_validate_packet_cases none 0 0 0).1 (Or.inl rfl),
   (C3_validate_packet_cases (some (List.replicate 8 0)) 8 0 0).2
     (List.replicate 8 0) rfl (by decide) (by decide)⟩

set_option maxRecDepth 4000 in
/-- C4 (amended): `ubx_prepare_config_cmd_u8` with key `0x10720001` and
value 1 produces a frame whose 16-bit length field is 9 and returns total
size 17 (= 6 + 9 + 2), not 19 as the spec scenario states. -/
theorem C4_config_u8_size (b : List Nat) (hb : b.length = 128) :
    (ubx_prepare_config_cmd_u8 (some b) UBX_CFG_I2C_UBX_ENABLE 1).2 = 17 ∧
    ((ubx_prepare_config_cmd_u8 (some b) UBX_CFG_I2C_UBX_ENABLE 1).1.getD []).getD 4 0 +
      256 * ((ubx_prepare_config_cmd_u8 (some b) UBX_CFG_I2C_UBX_ENABLE 1).1.getD []).getD 5 0 = 9 := by
  unfold ubx_prepare_config_cmd_u8
  rw [prepare_config_indep_buf b hb UBX_CFG_I2C_UBX_ENABLE [1 % 256] 1 (by omega)]
  decide

theorem C4_witness :
    (ubx_prepare_config_cmd_u8 (some (List.replicate 128 0)) UBX_CFG_I2C_UBX_ENABLE 1).2 = 17 ∧
    ((ubx_prepare_config_cmd_u8 (some (List.replicate 128 0)) UBX_CFG_I2C_UBX_ENABLE 1).1.getD []).getD 4 0 +
      256 * ((ubx_prepare_config_cmd_u8 (some (List.replicate 128 0)) UBX_CFG_I2C_UBX_ENABLE 1).1.getD []).getD 5 0 = 9 :=
  C4_config_u8_size (List.replicate 128 0) (by simp)

set_option maxRecDepth 4000 in
theorem C4_counterexample :
    (ubx_prepare_config_cmd_u8 (some (List.replicate 128 55)) UBX_CFG_I2C_UBX_ENABLE 1).2 = 17 ∧
    (ubx_prepare_config_cmd_u8 (some (List.replicate 128 55)) UBX_CFG_I2C_UBX_ENABLE 1).2 ≠ 19 := by
  decide

/-- C9: two calls of `ubx_prepare_command` (or of
`ubx_prepare_config_cmd_by_size` with arguments passing its parameter
check) on 128-byte buffers with different initial contents produce the same
final buffer contents and the same returned size. -/
theorem C9_builder_independent_of_initial_contents (b1 b2 : List Nat)
    (h1 : b1.length = 128) (h2 : b2.length = 128) (cls id cfg : Nat)
    (vb : List Nat) (n : Nat) (hn : n ≤ 4) :
    ubx_prepare_command (some b1) cls id = ubx_prepare_command (some b2) cls id ∧
    ubx_prepare_config_cmd_by_size (some b1) cfg (some vb) n =
      ubx_prepare_config_cmd_by_size (some b2) cfg (some vb) n :=
  ⟨(prepare_command_indep_buf b1 h1 cls id).trans
      (prepare_command_indep_buf b2 h2 cls id).symm,
   (prepare_config_indep_buf b1 h1 cfg vb n hn).trans
      (prepare_config_indep_buf b2 h2 cfg vb n hn).symm⟩

theorem C9_witness :
    ubx_prepare_command (some (List.replicate 128 7)) UBX_CLASS_NAV UBX_NAV_PVT =
      ubx_prepare_command (some (List.replicate 128 0)) UBX_CLASS_NAV UBX_NAV_PVT ∧
    ubx_prepare_config_cmd_by_size (some (List.replicate 128 7)) UBX_CFG_RATE_MEAS
        (some [0xE8, 0x03]) 2 =
      ubx_prepare_config_cmd_by_size (some (List.replicate 128 0)) UBX_CFG_RATE_MEAS
        (some [0xE8, 0x03]) 2 :=
  C9_builder_independent_of_initial_contents (List.replicate 128 7)
    (List.replicate 128 0) (by simp) (by simp) UBX_CLASS_NAV UBX_NAV_PVT
    UBX_CFG_RATE_MEAS [0xE8, 0x03] 2 (by omega)

/-- C2: on a readable buffer, `ubx_validate_ack` succeeds exactly when the
inner ACK-shaped `ubx_validate_packet` succeeds and payload bytes 6 and 7
echo the expected class and id; and when the inner validation fails with
status `s`, it returns `UBLOX_ERROR` if byte 3 equals the NACK id and
otherwise propagates `s`. -/
theorem C2_validate_ack_cases (l : List Nat) (size ecls eid : Nat)
    (h4 : 4 ≤ l.length) (hs : size ≤ l.length) :
    (ubx_validate_ack (some l) size ecls eid = some UBLOX_OK ↔
      (ubx_validate_packet (some l) size UBX_CLASS_ACK UBX_ACK_ACK = some UBLOX_OK ∧
        l.getD 6 0 = ecls ∧ l.getD 7 0 = eid)) ∧
    (∀ s, ubx_validate_packet (some l) size UBX_CLASS_ACK UBX_ACK_ACK = some s →
      s ≠ UBLOX_OK →
      ubx_validate_ack (some l) size ecls eid =
        some (if l.getD 3 0 = UBX_ACK_NACK then UBLOX_ERROR else s)) := by
  have hpartB := fun s => ack_fail_char l size ecls eid s (by omega)
  refine ⟨⟨?_, ?_⟩, hpartB⟩
  · intro hok
    obtain ⟨s, hsome⟩ :=
      validate_packet_some_of_le l size UBX_CLASS_ACK UBX_ACK_ACK hs
    by_cases hOk : s = UBLOX_OK
    · subst hOk
      refine ⟨hsome, ?_⟩
      have hb := validate_packet_some_ok_bound l size UBX_CLASS_ACK UBX_ACK_ACK hsome
      have e6 := get?_eq_some_getD l (show 6 < l.length by omega)
      have e7 := get?_eq_some_getD l (show 7 < l.length by omega)
      simp only [ubx_validate_ack, hsome,
        if_neg (show ¬ (UBLOX_OK ≠ UBLOX_OK) from fun hc => hc rfl),
        readByteChk, Option.some_bind, e6, e7] at hok
      by_cases hmm : l.getD 6 0 ≠ ecls ∨ l.getD 7 0 ≠ eid
      · rw [if_pos hmm] at hok
        exact absurd hok (by decide)
      · push_neg at hmm
        exact hmm
    · rw [hpartB s hsome hOk] at hok
      by_cases hn : l.getD 3 0 = UBX_ACK_NACK
      · rw [if_pos hn] at hok
        exact absurd hok (by decide)
      · rw [if_neg hn] at hok
        injection hok with hok
        exact absurd hok hOk
  · rintro ⟨hinner, h6, h7⟩
    have hb := validate_packet_some_ok_bound l size UBX_CLASS_ACK UBX_ACK_ACK hinner
    have e6 := get?_eq_some_getD l (show 6 < l.length by omega)
    have e7 := get?_eq_some_getD l (show 7 < l.length by omega)
    simp only [ubx_validate_ack, hinner,
      if_neg (show ¬ (UBLOX_OK ≠ UBLOX_OK) from fun hc => hc rfl),
      readByteChk, Option.some_bind, e6, e7]
    rw [if_neg (show ¬ (l.getD 6 0 ≠ ecls ∨ l.getD 7 0 ≠ eid) by
      rw [h6, h7]; simp)]

theorem C2_witness :
    ubx_validate_ack (some (List.replicate 10 0)) 0 UBX_CLASS_CFG UBX_CFG_VALSET =
      some UBLOX_ERROR := by
  have h := (C2_validate_ack_cases (List.replicate 10 0) 0 UBX_CLASS_CFG
      UBX_CFG_VALSET (by decide) (by decide)).2 UBLOX_INVALID_PARAM
      (by decide) (by decide)
  rw [h]
  decide

/-- C8: flipping any single bit (bit index below 8) of any byte of a byte
span changes at least one of the two bytes `calc_checksum` produces. -/
theorem C8_checksum_bit_sensitivity (l : List Nat) (i k : Nat)
    (hi : i < l.length) (hk : k < 8) (hbytes : ∀ b ∈ l, b < 256) :
    calc_checksum (l.set i (l.getD i 0 ^^^ 2 ^ k)) ≠ calc_checksum l := by
  intro hEq
  have hb : l.getD i 0 < 256 := hbytes _ (getD_mem l hi)
  have h2k : (2 : Nat) ^ k < 256 := by
    calc (2 : Nat) ^ k < 2 ^ 8 := Nat.pow_lt_pow_right (by omega) hk
    _ = 256 := by norm_num
  have hv : l.getD i 0 ^^^ 2 ^ k < 256 := by
    have := Nat.xor_lt_two_pow (n := 8) (by simpa using hb) (by simpa using h2k)
    simpa using this
  have hfst := congrArg Prod.fst hEq
  rw [calc_checksum_fst, calc_checksum_fst] at hfst
  have hsum := sum_set_add l i (l.getD i 0 ^^^ 2 ^ k) hi
  have hbv : l.getD i 0 = l.getD i 0 ^^^ 2 ^ k := by omega
  have hzero : (2 : Nat) ^ k = 0 := xor_eq_self_iff_zero _ _ hbv.symm
  have hpos : 0 < (2 : Nat) ^ k := pow_pos (by omega) k
  omega

theorem C8_witness :
    0 < ([1, 2] : List Nat).length ∧ (0 : Nat) < 8 ∧
    (∀ b ∈ ([1, 2] : List Nat), b < 256) ∧
    calc_checksum (([1, 2] : List Nat).set 0
        (([1, 2] : List Nat).getD 0 0 ^^^ 2 ^ 0)) ≠ calc_checksum [1, 2] :=
  ⟨by decide, by decide, by decide,
   C8_checksum_bit_sensitivity [1, 2] 0 0 (by decide) (by decide) (by decide)⟩

/-- C10: `ubx_validate_ack` reads byte 3 on every failure path of the inner
validation, so a null buffer or an allocation shorter than 4 bytes always
drives it into undefined behaviour (modelled as `none`): it is memory-safe
only under the precondition buffer non-null and at least 4 bytes. -/
theorem C10_validate_ack_needs_four_bytes (buffer : Option (List Nat))
    (size ecls eid : Nat)
    (h : buffer = none ∨ ∃ l, buffer = some l ∧ l.length < 4) :
    ubx_validate_ack buffer size ecls eid = none := by
  rcases h with h | ⟨l, hbuf, hlen⟩
  · subst h
    rfl
  · subst hbuf
    cases hinner : ubx_validate_packet (some l) size UBX_CLASS_ACK UBX_ACK_ACK with
    | none => simp [ubx_validate_ack, hinner]
    | some s =>
      have hsne : s ≠ UBLOX_OK := by
        intro hEq
        subst hEq
        have := (validate_packet_some_ok_bound l size UBX_CLASS_ACK UBX_ACK_ACK hinner).2
        omega
      have hg3 : l.get? 3 = none := get?_eq_none_of_short l (by omega)
      simp only [ubx_validate_ack, hinner, if_pos hsne, readByteChk,
        Option.some_bind, hg3]

theorem C10_witness :
    ubx_validate_ack none 10 UBX_CLASS_CFG UBX_CFG_VALSET = none ∧
    ubx_validate_ack (some [0xB5, 0x62, 0x05]) 10 UBX_CLASS_CFG UBX_CFG_VALSET = none :=
  ⟨C10_validate_ack_needs_four_bytes none 10 UBX_CLASS_CFG UBX_CFG_VALSET
     (Or.inl rfl),
   C10_validate_ack_needs_four_bytes (some [0xB5, 0x62, 0x05]) 10 UBX_CLASS_CFG
     UBX_CFG_VALSET (Or.inr ⟨[0xB5, 0x62, 0x05], rfl, by decide⟩)⟩

/-- C5 (code behaviour at the claimed failing input): when the transport
transmit of the "enable primary protocol output" config command fails during
`max_m10s_init` (here: a fully-populated configuration whose transmit always
fails), the function returns immediately with the instance still
uninitialized — but it returns `UBLOX_ERROR` (the general/protocol error
code), not `UBLOX_I2C_ERROR` (the bus-error code the spec calls BusError,
the one this same file returns for the receive and `max_m10s_command`
transport failures). -/
theorem C5_init_transmit_fail_behaviour :
    (max_m10s_init dev_uninit cfg_tx_fail).map (fun r => (r.1, r.2.1.initialized)) =
      some (UBLOX_ERROR, 0) ∧
    UBLOX_ERROR ≠ UBLOX_I2C_ERROR := by
  refine ⟨by decide, by decide⟩

/-- C6 (amended): `max_m10s_command` updates `tx_size` (to the prepared
size 8) and `current_cmd` (to the requested command) before transmitting,
so on transmit failure it returns `UBLOX_I2C_ERROR` with those two fields
already holding the new values, while the initialized flag, the
configuration and the receive-side state are left unchanged. -/
theorem C6_command_transmit_fail_state (dev : max_m10s_dev_s)
    (tfn : i2c_transmit_fn) (hinit : ¬ dev.initialized = 0)
    (htr : dev.configs.transmit = some tfn)
    (hfail : ∀ a b c d e, tfn a b c d e ≠ HAL_OK) :
    ∃ dev2 tr,
      max_m10s_command dev GPS_CMD_PVT = some (UBLOX_I2C_ERROR, dev2, tr) ∧
      dev2.initialized = dev.initialized ∧ dev2.configs = dev.configs ∧
      dev2.rx_buffer = dev.rx_buffer ∧ dev2.rx_size = dev.rx_size ∧
      dev2.tx_size = 8 ∧ dev2.current_cmd = GPS_CMD_PVT := by
  simp only [max_m10s_command, if_neg hinit, ubx_prepare_command, htr]
  rw [if_neg (show ¬ (UBX_HEADER_LENGTH + 0 + UBX_CHECKSUM_LENGTH = 0) by decide)]
  rw [if_pos (hfail _ _ _ _ _)]
  refine ⟨_, _, rfl, ?_, ?_, ?_, ?_, ?_, ?_⟩ <;>
    first
    | rfl
    | trivial

theorem C6_counterexample :
    (max_m10s_command dev_ready17 GPS_CMD_PVT).map (fun r => r.1) =
      some UBLOX_I2C_ERROR ∧
    (max_m10s_command dev_ready17 GPS_CMD_PVT).map (fun r => r.2.1.tx_size) =
      some 8 ∧
    dev_ready17.tx_size = 17 ∧
    UBLOX_I2C_ERROR ≠ UBLOX_OK ∧ (8 : Nat) ≠ 17 := by
  refine ⟨by decide, by decide, by decide, by decide, by decide⟩

theorem C6_witness :
    ∃ dev2 tr,
      max_m10s_command dev_ready17 GPS_CMD_PVT = some (UBLOX_I2C_ERROR, dev2, tr) ∧
      dev2.initialized = dev_ready17.initialized ∧
      dev2.configs = dev_ready17.configs ∧
      dev2.rx_buffer = dev_ready17.rx_buffer ∧
      dev2.rx_size = dev_ready17.rx_size ∧
      dev2.tx_size = 8 ∧ dev2.current_cmd = GPS_CMD_PVT :=
  C6_command_transmit_fail_state dev_ready17 tx_always_fail (by decide) rfl
    (fun _ _ _ _ _ hcontra => HAL_StatusTypeDef.noConfusion hcontra)

/-- C7: a device instance whose initialized flag is 0 is rejected by both
`max_m10s_command` and `max_m10s_read` with `UBLOX_INVALID_PARAM`, with the
instance unchanged and no bus transaction initiated (empty trace). -/
theorem C7_uninitialized_rejects (dev : max_m10s_dev_s) (cmd : gps_cmd_type_e)
    (h : dev.initialized = 0) :
    max_m10s_command dev cmd = some (UBLOX_INVALID_PARAM, dev, []) ∧
    max_m10s_read dev = some (UBLOX_INVALID_PARAM, dev, []) := by
  constructor
  · simp only [max_m10s_command, if_pos h]
  · simp only [max_m10s_read, if_pos h]

theorem C7_witness :
    max_m10s_command dev_uninit GPS_CMD_PVT = some (UBLOX_INVALID_PARAM, dev_uninit, []) ∧
    max_m10s_read dev_uninit = some (UBLOX_INVALID_PARAM, dev_uninit, []) :=
  C7_uninitialized_rejects dev_uninit GPS_CMD_PVT rfl
